import Mathlib

/-!
Shallow embedding of the weather-map application's resolver logic
(`src/components/WeatherMap.tsx`): the weather-code → condition-label
mapping, the reverse-geocode display-name derivation, the construction of
the current-conditions and forecast records from the upstream responses,
the recent-history bookkeeping, and the state transition performed by
`fetchWeather` / `searchCity`.

Modelling conventions:
* JavaScript numbers carrying physical quantities (temperatures, wind,
  pressure, coordinates) are modelled as `ℚ`; rounded values as `ℤ`.
* `Math.round x` (half-up, ties towards `+∞`) is `⌊x + 1/2⌋`.
* A JSON field that may be absent (`undefined`) is an `Option`.
* A failed HTTP call (network error, or a thrown `.json()`) is `none` in
  the corresponding `Option` response argument; anything the `try` block
  can observe is a `some`.
* Effects are reified: the network requests a step issues and the toasts
  it fires are returned alongside the new state.
-/

/-- JavaScript `Math.round`: nearest integer, ties rounded towards `+∞`. -/
def jsRound (q : ℚ) : ℤ := ⌊q + 1/2⌋

/-- JavaScript `String.prototype.trim`: strip leading and trailing
whitespace. -/
def jsTrim (s : String) : String :=
  String.mk (((s.data.dropWhile Char.isWhitespace).reverse.dropWhile
    Char.isWhitespace).reverse)

/-- `weatherCodeToCondition` (WeatherMap.tsx lines 197–206): ordered
threshold bands over the numeric weather code. -/
def weatherCodeToCondition (code : ℤ) : String :=
  if code = 0 then "맑음"
  else if code ≤ 3 then "구름 조금"
  else if code ≤ 48 then "안개"
  else if code ≤ 67 then "비"
  else if code ≤ 77 then "눈"
  else if code ≤ 82 then "소나기"
  else if code ≤ 86 then "눈"
  else "뇌우"

/-- The `current` object of the weather response (open-meteo). -/
structure CurrentWeather where
  temperature_2m : ℚ
  relative_humidity_2m : ℚ
  apparent_temperature : ℚ
  weather_code : ℤ
  wind_speed_10m : ℚ
  surface_pressure : ℚ
  deriving Repr, DecidableEq

/-- The `daily` object of the weather response: index-aligned arrays,
index 0 = today. -/
structure DailyWeather where
  time : List String
  weather_code : List ℤ
  temperature_2m_max : List ℚ
  temperature_2m_min : List ℚ
  sunrise : List String
  sunset : List String
  deriving Repr, DecidableEq

/-- The parsed weather response body. -/
structure WeatherResp where
  current : CurrentWeather
  daily : DailyWeather
  deriving Repr, DecidableEq

/-- The `address` object of the Nominatim reverse-geocode response; every
field the code reads. `none` = key absent. -/
structure Address where
  neighbourhood : Option String := none
  suburb : Option String := none
  village : Option String := none
  hamlet : Option String := none
  city_district : Option String := none
  district : Option String := none
  borough : Option String := none
  city : Option String := none
  town : Option String := none
  county : Option String := none
  country : Option String := none
  deriving Repr, DecidableEq

/-- The parsed reverse-geocode response body; `address` may be absent
(`geoData.address || {}`). -/
structure GeoData where
  address : Option Address := none
  deriving Repr, DecidableEq

/-- `const addr = geoData.address || {}`. -/
def GeoData.addr (g : GeoData) : Address := g.address.getD {}

/-- The `locationParts` array (lines 210–226): the ten address fields in
the order the code pushes them, keeping those that are present and truthy
(a present empty string is falsy in `if (addr.x)` and is not pushed). -/
def locationParts (addr : Address) : List String :=
  ([addr.neighbourhood, addr.suburb, addr.village, addr.hamlet,
    addr.city_district, addr.district, addr.borough,
    addr.city, addr.town, addr.county].filterMap id).filter
    fun s => !s.isEmpty

/-- `locationName` (lines 229–231): first two parts joined by ", ", or the
unknown-location placeholder when no part is present. -/
def locationName (addr : Address) : String :=
  if (locationParts addr).length > 0 then
    String.intercalate ", " ((locationParts addr).take 2)
  else "알 수 없는 위치"

/-- The normalized current-conditions record (`WeatherData` interface). -/
structure WeatherData where
  location : String
  country : String
  temp : ℤ
  feelsLike : ℤ
  condition : String
  humidity : ℚ
  windSpeed : ℤ
  visibility : ℤ
  pressure : ℤ
  uv : ℤ
  icon : String
  sunrise : Option String := none
  sunset : Option String := none
  deriving Repr, DecidableEq

/-- One forecast entry (`ForecastDay` interface). `maxTemp`/`minTemp` are
`none` when the upstream array is shorter than `daily.time` and the index
falls off its end (`Math.round(undefined)`, a NaN, in the source). -/
structure ForecastDay where
  date : String
  maxTemp : Option ℤ
  minTemp : Option ℤ
  condition : String
  icon : String
  deriving Repr, DecidableEq

/-- A resolved location (`LocationData` interface). -/
structure LocationData where
  name : String
  lat : ℚ
  lon : ℚ
  weather : Option WeatherData := none
  forecast : Option (List ForecastDay) := none
  deriving Repr, DecidableEq

/-- The `weather` record assembled at lines 233–247. -/
def mkWeather (w : WeatherResp) (addr : Address) : WeatherData :=
  { location := locationName addr
    country := (addr.country.getD "")
    temp := jsRound w.current.temperature_2m
    feelsLike := jsRound w.current.apparent_temperature
    condition := weatherCodeToCondition w.current.weather_code
    humidity := w.current.relative_humidity_2m
    windSpeed := jsRound w.current.wind_speed_10m
    visibility := 10
    pressure := jsRound w.current.surface_pressure
    uv := 3
    icon := ""
    sunrise := w.daily.sunrise.head?.bind fun s => (s.splitOn "T")[1]?
    sunset := w.daily.sunset.head?.bind fun s => (s.splitOn "T")[1]? }

/-- The forecast list assembled at lines 249–255:
`daily.time.slice(0, 5).map((date, i) => ...)`, the companion arrays
accessed by index. An out-of-range `weather_code[i]` is `undefined`, for
which every comparison in `weatherCodeToCondition` is false, giving the
final "뇌우" band. -/
def mkForecast (d : DailyWeather) : List ForecastDay :=
  (d.time.take 5).enum.map fun p =>
    { date := p.2
      maxTemp := (d.temperature_2m_max.get? p.1).map jsRound
      minTemp := (d.temperature_2m_min.get? p.1).map jsRound
      condition := match d.weather_code.get? p.1 with
        | some c => weatherCodeToCondition c
        | none => "뇌우"
      icon := "" }

/-- The history update at lines 267–270: filter out entries at the same
coordinates, prepend the new location, keep the first five. -/
def record (prev : List LocationData) (newLocation : LocationData) :
    List LocationData :=
  let filtered := prev.filter fun loc =>
    !(loc.lat == newLocation.lat && loc.lon == newLocation.lon)
  (newLocation :: filtered).take 5

/-- The component state the resolver logic touches. -/
structure AppState where
  selectedLocation : LocationData
  searchQuery : String
  loading : Bool
  recentLocations : List LocationData
  deriving Repr, DecidableEq

/-- Network requests a step can issue. -/
inductive NetCall where
  | weatherReq (lat lon : ℚ)
  | reverseGeoReq (lat lon : ℚ)
  | searchReq (q : String)
  deriving Repr, DecidableEq

/-- Toasts a step can fire. -/
inductive Toast where
  | success (msg : String)
  | error (msg : String)
  | info (msg : String)
  deriving Repr, DecidableEq

/-- The observable outcome of one user-triggered step: the new state, the
network requests issued, and the toasts fired. -/
structure StepOut where
  state : AppState
  calls : List NetCall
  toasts : List Toast
  deriving Repr, DecidableEq

/-- `fetchWeather` (lines 179–279) as a state transition. `wres = none`
models a weather call that failed (non-ok status throws at line 187, or
the fetch / `.json()` itself threw); `gres = none` models a reverse-geocode
fetch or `.json()` that threw. Either `none` lands in the `catch` block,
which fires the single error toast; the `finally` clears `loading`. The
`try`/`catch` means the function is total: no failure escapes to the
caller. -/
def fetchWeather (st : AppState) (lat lon : ℚ)
    (wres : Option WeatherResp) (gres : Option GeoData) : StepOut :=
  match wres with
  | none =>
      { state := { st with loading := false }
        calls := [NetCall.weatherReq lat lon]
        toasts := [Toast.error "날씨 정보를 가져오는데 실패했습니다"] }
  | some w =>
    match gres with
    | none =>
        { state := { st with loading := false }
          calls := [NetCall.weatherReq lat lon, NetCall.reverseGeoReq lat lon]
          toasts := [Toast.error "날씨 정보를 가져오는데 실패했습니다"] }
    | some g =>
      let weather := mkWeather w g.addr
      let forecast := mkForecast w.daily
      let newLocation : LocationData :=
        { name := weather.location, lat := lat, lon := lon
          weather := some weather, forecast := some forecast }
      { state :=
          { st with
            loading := false
            selectedLocation := newLocation
            recentLocations := record st.recentLocations newLocation }
        calls := [NetCall.weatherReq lat lon, NetCall.reverseGeoReq lat lon]
        toasts := [Toast.success (weather.location ++ "의 날씨 정보를 가져왔습니다")] }

/-- The result rows of the forward-geocode search; `lat`/`lon` carry the
values `parseFloat` extracts from the response's string fields. -/
structure SearchResult where
  lat : ℚ
  lon : ℚ
  deriving Repr, DecidableEq

/-- `searchCity` (lines 281–304) as a state transition. The guard
`if (!searchQuery.trim()) return` makes a blank query a silent no-op
before `setLoading(true)` and before any fetch. `sres = none` models a
thrown search fetch / `.json()`; `some []` is a successful search with no
results. Otherwise the first result's coordinates are handed to
`fetchWeather`. -/
def searchCity (st : AppState)
    (sres : Option (List SearchResult))
    (wres : Option WeatherResp) (gres : Option GeoData) : StepOut :=
  if (jsTrim st.searchQuery).isEmpty then
    { state := st, calls := [], toasts := [] }
  else
    match sres with
    | none =>
        { state := { st with loading := false }
          calls := [NetCall.searchReq st.searchQuery]
          toasts := [Toast.error "도시 검색에 실패했습니다"] }
    | some [] =>
        { state := { st with loading := false }
          calls := [NetCall.searchReq st.searchQuery]
          toasts := [Toast.error "도시를 찾을 수 없습니다"] }
    | some (r :: _) =>
        let out := fetchWeather st r.lat r.lon wres gres
        { out with
          state := { out.state with loading := false }
          calls := NetCall.searchReq st.searchQuery :: out.calls }

/-- The initial component state (lines 66–73): Seoul selected, empty
query, empty history. -/
def initialState : AppState :=
  { selectedLocation := { name := "서울", lat := 37.5665, lon := 126.978 }
    searchQuery := ""
    loading := false
    recentLocations := [] }

/-! ## Derived predicates and sample data -/

/-- The coordinate-equality test used by the history filter
(`loc.lat === lat && loc.lon === lon`). -/
def sameCoords (a b : LocationData) : Bool :=
  a.lat == b.lat && a.lon == b.lon

/-- Two history entries occupy distinct coordinates. -/
def coordsDistinct (a b : LocationData) : Prop :=
  ¬(a.lat = b.lat ∧ a.lon = b.lon)

/-- The invariant of the recent-history list: at most five entries and no
two entries at identical coordinates. -/
def HistoryInv (h : List LocationData) : Prop :=
  h.length ≤ 5 ∧ h.Pairwise coordsDistinct

/-- A sample resolved location (Seoul city hall). -/
def locSeoul : LocationData :=
  { name := "서울", lat := 37.5665, lon := 126.978 }

/-- A second sample location at the same coordinates as `locSeoul` but
with a different payload, standing for an older resolution of the same
point. -/
def locSeoulOld : LocationData :=
  { name := "중구, 서울특별시", lat := 37.5665, lon := 126.978 }

/-- A sample resolved location at different coordinates (Busan). -/
def locBusan : LocationData :=
  { name := "부산", lat := 35.1796, lon := 129.0756 }

/-- A sample parsed weather response. -/
def sampleWeatherResp : WeatherResp :=
  { current :=
      { temperature_2m := 18.4
        relative_humidity_2m := 60
        apparent_temperature := 17.8
        weather_code := 1
        wind_speed_10m := 12.3
        surface_pressure := 1013.2 }
    daily :=
      { time := ["2026-10-12", "2026-10-13", "2026-10-14", "2026-10-15",
                 "2026-10-16", "2026-10-17"]
        weather_code := [1, 2, 3, 61, 0, 95]
        temperature_2m_max := [20, 21, 19, 18, 17, 16]
        temperature_2m_min := [10, 11, 9, 8, 7, 6]
        sunrise := ["2026-10-12T06:40"]
        sunset := ["2026-10-12T18:05"] } }

/-! ## Lemmas about `record` -/

theorem record_eq (h : List LocationData) (l : LocationData) :
    record h l =
      (l :: h.filter fun loc => !(loc.lat == l.lat && loc.lon == l.lon)).take 5 := rfl

theorem record_head (h : List LocationData) (l : LocationData) :
    (record h l).head? = some l := by
  rw [record_eq, List.take_succ_cons, List.head?_cons]

theorem record_count (h : List LocationData) (l : LocationData) :
    (record h l).countP (fun e => sameCoords e l) = 1 := by
  rw [record_eq, List.take_succ_cons, List.countP_cons]
  have hz : (((h.filter fun loc =>
      !(loc.lat == l.lat && loc.lon == l.lon)).take 4).countP
      (fun e => sameCoords e l)) = 0 := by
    rw [List.countP_eq_zero]
    intro a ha
    have ha' := (List.mem_filter.mp (List.mem_of_mem_take ha)).2
    rw [Bool.not_eq_true'] at ha'
    simp [sameCoords, ha']
  rw [hz]
  simp [sameCoords]

theorem record_len (h : List LocationData) (l : LocationData) :
    (record h l).length ≤ 5 := by
  rw [record_eq]
  exact List.length_take_le 5 _

theorem record_inv (h : List LocationData) (l : LocationData) (hi : HistoryInv h) :
    HistoryInv (record h l) := by
  refine ⟨record_len h l, ?_⟩
  rw [record_eq]
  refine List.Pairwise.sublist (List.take_sublist _ _) ?_
  refine List.pairwise_cons.mpr ⟨?_, ?_⟩
  · intro b hb hc
    have hbf := (List.mem_filter.mp hb).2
    rw [Bool.not_eq_true'] at hbf
    simp [← hc.1, ← hc.2] at hbf
  · exact hi.2.sublist (List.filter_sublist _)

/-! ## The display-name derivation as specified -/

/-- The display-name derivation exactly as the spec words it: priority
order neighbourhood/suburb/village/hamlet, then district/borough, then
city/town/county — without the `city_district` field the source also
reads. -/
def locationNameClaimed (addr : Address) : String :=
  let parts := ([addr.neighbourhood, addr.suburb, addr.village, addr.hamlet,
    addr.district, addr.borough, addr.city, addr.town, addr.county].filterMap
    id).filter fun s => !s.isEmpty
  if parts.length > 0 then String.intercalate ", " (parts.take 2)
  else "알 수 없는 위치"

/-- The display-name derivation with the middle tier amended to
city_district/district/borough, matching the source's tiers. -/
def displayNameAmended (addr : Address) : String :=
  let tier1 := [addr.neighbourhood, addr.suburb, addr.village, addr.hamlet]
  let tier2 := [addr.city_district, addr.district, addr.borough]
  let tier3 := [addr.city, addr.town, addr.county]
  let parts := ((tier1 ++ tier2 ++ tier3).filterMap id).filter
    fun s => !s.isEmpty
  if parts.length > 0 then String.intercalate ", " (parts.take 2)
  else "알 수 없는 위치"

/-- A reverse-geocode address carrying a `city_district` and a `city`, as
Nominatim returns for an urban district. -/
def addrCityDistrictSample : Address :=
  { city_district := some "성동구", city := some "서울특별시" }

/-- A reverse-geocode address carrying both a `neighbourhood` and a
`city`. -/
def addrNeighbourhoodCity : Address :=
  { neighbourhood := some "성수동", city := some "서울특별시" }

theorem locationParts_head_of_neighbourhood (addr : Address) (n : String)
    (hn : addr.neighbourhood = some n) (hne : n.isEmpty = false) :
    (locationParts addr).head? = some n := by
  simp [locationParts, List.filterMap_cons, hn, List.filter_cons, hne]

/-! ## Claim theorems -/

/-- C1: for every integer weather code from 0 to 99,
`weatherCodeToCondition` returns a label of the fixed band table's label
column and matches the band table: 0 → 맑음 (clear), 1–3 → 구름 조금
(partly cloudy), 4–48 → 안개 (fog), 49–67 → 비 (rain), 68–77 → 눈 (snow),
78–82 → 소나기 (showers), 83–86 → 눈 (snow), and any higher code → 뇌우
(thunderstorm). Ties resolve to the first matching band in ascending
order because the source's if-chain tests the bounds in ascending order;
determinism and purity hold because the mapping is a function of the code
alone. The table's eight bands carry seven distinct strings, 눈 appearing
twice. -/
theorem weatherCode_band_table (code : ℤ) (h0 : 0 ≤ code) (h99 : code ≤ 99) :
    weatherCodeToCondition code ∈
      ["맑음", "구름 조금", "안개", "비", "눈", "소나기", "눈", "뇌우"] ∧
    (code = 0 → weatherCodeToCondition code = "맑음") ∧
    (1 ≤ code → code ≤ 3 → weatherCodeToCondition code = "구름 조금") ∧
    (4 ≤ code → code ≤ 48 → weatherCodeToCondition code = "안개") ∧
    (49 ≤ code → code ≤ 67 → weatherCodeToCondition code = "비") ∧
    (68 ≤ code → code ≤ 77 → weatherCodeToCondition code = "눈") ∧
    (78 ≤ code → code ≤ 82 → weatherCodeToCondition code = "소나기") ∧
    (83 ≤ code → code ≤ 86 → weatherCodeToCondition code = "눈") ∧
    (87 ≤ code → weatherCodeToCondition code = "뇌우") := by
  refine ⟨?_, ?_, ?_, ?_, ?_, ?_, ?_, ?_, ?_⟩
  · simp only [weatherCodeToCondition]
    split_ifs <;> simp
  all_goals
    intro h1
    try intro h2
    simp only [weatherCodeToCondition]
    split_ifs <;> first | rfl | omega

/-- Witness for C1 at code 65: the rain band. -/
theorem weatherCode_band_table_witness : weatherCodeToCondition 65 = "비" :=
  (weatherCode_band_table 65 (by decide) (by decide)).2.2.2.2.1
    (by decide) (by decide)

/-- C2: `record` prepends the new entry (it is the head), leaves exactly
one entry at the new entry's coordinates (all previous entries there are
removed), and truncates to at most five entries; recording the same
coordinate pair twice leaves exactly one entry for that pair, positioned
first, holding the most recent resolved record `l₂`. -/
theorem record_dedup_prepend_truncate (hist : List LocationData)
    (l₁ l₂ : LocationData) (hlat : l₁.lat = l₂.lat) (hlon : l₁.lon = l₂.lon) :
    (record hist l₂).head? = some l₂ ∧
    (record hist l₂).countP (fun e => sameCoords e l₂) = 1 ∧
    (record hist l₂).length ≤ 5 ∧
    (record (record hist l₁) l₂).head? = some l₂ ∧
    (record (record hist l₁) l₂).countP (fun e => sameCoords e l₂) = 1 ∧
    (record (record hist l₁) l₂).countP (fun e => sameCoords e l₁) = 1 := by
  refine ⟨record_head _ _, record_count _ _, record_len _ _,
    record_head _ _, record_count _ _, ?_⟩
  have hfun : (fun e => sameCoords e l₁) = (fun e => sameCoords e l₂) := by
    funext e
    simp [sameCoords, hlat, hlon]
  rw [hfun]
  exact record_count _ _

/-- Witness for C2: recording two resolutions of the same coordinates. -/
theorem record_dedup_prepend_truncate_witness :
    (record [] locSeoul).head? = some locSeoul ∧
    (record [] locSeoul).countP (fun e => sameCoords e locSeoul) = 1 ∧
    (record [] locSeoul).length ≤ 5 ∧
    (record (record [] locSeoulOld) locSeoul).head? = some locSeoul ∧
    (record (record [] locSeoulOld) locSeoul).countP
      (fun e => sameCoords e locSeoul) = 1 ∧
    (record (record [] locSeoulOld) locSeoul).countP
      (fun e => sameCoords e locSeoulOld) = 1 :=
  record_dedup_prepend_truncate [] locSeoulOld locSeoul rfl rfl

/-- C3: the initial history satisfies the invariant (at most five
entries, pairwise distinct coordinates), and every `record` operation
preserves it, duplicate coordinates or not. -/
theorem history_invariant_preserved (h : List LocationData) (l : LocationData) :
    HistoryInv [] ∧ (HistoryInv h → HistoryInv (record h l)) :=
  ⟨⟨by simp, List.Pairwise.nil⟩, record_inv h l⟩

/-- Witness for C3: inserting Busan into a singleton Seoul history. -/
theorem history_invariant_preserved_witness :
    HistoryInv (record [locSeoul] locBusan) :=
  (history_invariant_preserved [locSeoul] locBusan).2 ⟨by simp, by simp⟩

/-- C4: when the weather request fails (non-success status or network
error, `wres = none`), the whole operation fails: the selected location
and the recent-history list are left unchanged, no reverse-geocode
request is issued, and the failure surfaces only as the single error
toast of the `catch` block — `fetchWeather` is a total function, so no
fault propagates to its caller. -/
theorem weather_failure_leaves_state (st : AppState) (lat lon : ℚ)
    (gres : Option GeoData) :
    (fetchWeather st lat lon none gres).state.selectedLocation
        = st.selectedLocation ∧
    (fetchWeather st lat lon none gres).state.recentLocations
        = st.recentLocations ∧
    (fetchWeather st lat lon none gres).calls = [NetCall.weatherReq lat lon] ∧
    (fetchWeather st lat lon none gres).toasts
        = [Toast.error "날씨 정보를 가져오는데 실패했습니다"] :=
  ⟨rfl, rfl, rfl, rfl⟩

/-- C5 counterexample: the weather request succeeds but the
reverse-geocode fetch throws (`gres = none`); contrary to the claim, the
operation aborts in the shared `catch` block — the selected location
stays the prior one, whose name is not the unknown-location placeholder,
and the error toast fires. -/
theorem geocode_throw_aborts_counterexample :
    (fetchWeather initialState 37 127 (some sampleWeatherResp)
        none).state.selectedLocation = initialState.selectedLocation ∧
    (fetchWeather initialState 37 127 (some sampleWeatherResp)
        none).state.selectedLocation.name ≠ "알 수 없는 위치" ∧
    (fetchWeather initialState 37 127 (some sampleWeatherResp) none).toasts
        = [Toast.error "날씨 정보를 가져오는데 실패했습니다"] :=
  ⟨rfl, by decide, rfl⟩

/-- C5 amended: when the weather request succeeds and the reverse-geocode
request completes with a JSON body that lacks an `address` object (as a
non-success Nominatim status does), the operation does not abort — it
produces a resolved location whose display name is the unknown-location
placeholder and fires the success toast; but when the reverse-geocode
fetch (or its body parsing) throws, the whole operation aborts like a
weather failure, leaving the selected location and history unchanged. -/
theorem geocode_degrades_without_address (st : AppState) (lat lon : ℚ)
    (w : WeatherResp) :
    (fetchWeather st lat lon (some w)
        (some { address := none })).state.selectedLocation.name
        = "알 수 없는 위치" ∧
    (∃ m, (fetchWeather st lat lon (some w) (some { address := none })).toasts
        = [Toast.success m]) ∧
    (fetchWeather st lat lon (some w) none).state.selectedLocation
        = st.selectedLocation ∧
    (fetchWeather st lat lon (some w) none).state.recentLocations
        = st.recentLocations :=
  ⟨rfl, ⟨_, rfl⟩, rfl, rfl⟩

/-- C6 counterexample: an address with a `city_district` and a `city`.
The source (line 219) pushes `city_district` into the middle tier, so the
derived name is "성동구, 서울특별시", while the claim's priority list,
which omits `city_district`, would derive "서울특별시". -/
theorem displayName_city_district_counterexample :
    locationName addrCityDistrictSample = "성동구, 서울특별시" ∧
    locationNameClaimed addrCityDistrictSample = "서울특별시" ∧
    locationName addrCityDistrictSample
      ≠ locationNameClaimed addrCityDistrictSample :=
  ⟨rfl, rfl, by decide⟩

/-- C6 amended: the derived display name follows the priority order
neighbourhood/suburb/village/hamlet, then city_district/district/borough,
then city/town/county, taking up to the two most specific present
(non-empty) fields joined by ", "; with no such field it is the fixed
unknown-location placeholder; and when a non-empty `neighbourhood` is
populated it is the most specific part used, regardless of `city`. -/
theorem displayName_priority_amended (addr : Address) (n : String)
    (hn : addr.neighbourhood = some n) (hne : n.isEmpty = false) :
    (∀ a : Address, locationName a = displayNameAmended a) ∧
    (∀ a : Address, locationParts a = [] →
      locationName a = "알 수 없는 위치") ∧
    (locationParts addr).head? = some n ∧
    (∃ rest, locationName addr = String.intercalate ", " (n :: rest)) := by
  refine ⟨fun _ => rfl, ?_, locationParts_head_of_neighbourhood addr n hn hne, ?_⟩
  · intro a ha
    simp [locationName, ha]
  · have hh := locationParts_head_of_neighbourhood addr n hn hne
    rcases hp : locationParts addr with _ | ⟨a, t⟩
    · rw [hp] at hh
      exact absurd hh (by simp)
    · rw [hp] at hh
      simp only [List.head?_cons, Option.some.injEq] at hh
      subst hh
      exact ⟨t.take 1, by simp [locationName, hp]⟩

/-- Witness for C6 (amended) at an address with both a neighbourhood and
a city: the neighbourhood leads the derived name. -/
theorem displayName_priority_amended_witness :
    (∀ a : Address, locationName a = displayNameAmended a) ∧
    (∀ a : Address, locationParts a = [] →
      locationName a = "알 수 없는 위치") ∧
    (locationParts addrNeighbourhoodCity).head? = some "성수동" ∧
    (∃ rest, locationName addrNeighbourhoodCity
      = String.intercalate ", " ("성수동" :: rest)) :=
  displayName_priority_amended addrNeighbourhoodCity "성수동" rfl rfl

/-- C7: a query whose JS-trim is empty (empty or whitespace-only) makes
`searchCity` a silent no-op: the state is returned unchanged (even
`loading` is untouched), no network request is issued, and no toast
fires. -/
theorem blank_query_noop (st : AppState) (sres : Option (List SearchResult))
    (wres : Option WeatherResp) (gres : Option GeoData)
    (hq : jsTrim st.searchQuery = "") :
    searchCity st sres wres gres = { state := st, calls := [], toasts := [] } := by
  have h0 : (jsTrim st.searchQuery).isEmpty = true := by rw [hq]; rfl
  simp [searchCity, h0]

/-- Witness for C7 on a whitespace-only query. -/
theorem blank_query_noop_witness :
    searchCity { initialState with searchQuery := " \t " } none none none
      = { state := { initialState with searchQuery := " \t " },
          calls := [], toasts := [] } :=
  blank_query_noop { initialState with searchQuery := " \t " } none none none
    (by decide)

/-- C8: in the resolved location a successful lookup installs,
temperature, feels-like, wind speed and pressure are `Math.round` of the
upstream values (`jsRound`, the nearest whole unit with ties towards
`+∞`), the humidity percentage is the upstream value untouched, and
visibility and UV index are the fixed placeholder constants 10 and 3
whatever the input. -/
theorem rounding_and_placeholders (st : AppState) (lat lon : ℚ)
    (w : WeatherResp) (g : GeoData) :
    ∃ wd, (fetchWeather st lat lon (some w)
        (some g)).state.selectedLocation.weather = some wd ∧
      wd.temp = jsRound w.current.temperature_2m ∧
      wd.feelsLike = jsRound w.current.apparent_temperature ∧
      wd.windSpeed = jsRound w.current.wind_speed_10m ∧
      wd.pressure = jsRound w.current.surface_pressure ∧
      wd.humidity = w.current.relative_humidity_2m ∧
      wd.visibility = 10 ∧
      wd.uv = 3 :=
  ⟨mkWeather w g.addr, rfl, rfl, rfl, rfl, rfl, rfl, rfl, rfl⟩

theorem mkForecast_length (d : DailyWeather) :
    (mkForecast d).length = min 5 d.time.length := by
  simp [mkForecast]

theorem mkForecast_dates (d : DailyWeather) :
    (mkForecast d).map ForecastDay.date = d.time.take 5 := by
  rw [mkForecast, List.map_map]
  have h : (ForecastDay.date ∘ fun p : ℕ × String =>
      ({ date := p.2
         maxTemp := (d.temperature_2m_max.get? p.1).map jsRound
         minTemp := (d.temperature_2m_min.get? p.1).map jsRound
         condition := match d.weather_code.get? p.1 with
           | some c => weatherCodeToCondition c
           | none => "뇌우"
         icon := "" } : ForecastDay)) = Prod.snd := rfl
  rw [h, List.enum_map_snd]

/-- C9: the forecast a successful lookup installs is `mkForecast` of the
upstream daily block; its length is `min 5` the number of daily entries,
its dates are the upstream `daily.time` dates in the same order
(`take 5`), and its first entry carries the date at upstream index 0 —
the current day. -/
theorem forecast_shape (st : AppState) (lat lon : ℚ) (w : WeatherResp)
    (g : GeoData) :
    (fetchWeather st lat lon (some w) (some g)).state.selectedLocation.forecast
        = some (mkForecast w.daily) ∧
    (mkForecast w.daily).length = min 5 w.daily.time.length ∧
    (mkForecast w.daily).map ForecastDay.date = w.daily.time.take 5 ∧
    ((mkForecast w.daily).head?).map ForecastDay.date = w.daily.time.head? := by
  refine ⟨rfl, mkForecast_length w.daily, mkForecast_dates w.daily, ?_⟩
  have h2 : ((mkForecast w.daily).map ForecastDay.date).head?
      = (w.daily.time.take 5).head? := by rw [mkForecast_dates w.daily]
  rw [List.head?_map] at h2
  rw [h2]
  cases w.daily.time <;> rfl

/-- C10: immediately after a successful lookup, the head of the
recent-history list is the very record installed as the selected
location. -/
theorem selected_is_history_head (st : AppState) (lat lon : ℚ)
    (w : WeatherResp) (g : GeoData) :
    (fetchWeather st lat lon (some w) (some g)).state.recentLocations.head?
      = some (fetchWeather st lat lon (some w)
          (some g)).state.selectedLocation :=
  record_head st.recentLocations _
